import Mathlib

/-!
Verification of the FluidTestScripts integration-test harness.

This file shallowly embeds the control flow of the test scripts
(`scripts/fullflow-mcp-subgraph.js`, `scripts/mcp-server.ts`, and the
unnamed test-suite scripts) as pure Lean functions.  External effects
(RPC calls, HTTP fetches, SDK calls) are modelled as oracles: each
network interaction's outcome is a field of an environment record, and
the harness logic is translated statement by statement from the source.
Theorems below settle the claims about the harness against these
definitions.
-/

namespace FluidTest

/-- Errors thrown by the harness or its collaborators are reported as
their message strings (`error.message` in the scripts). -/
abbrev Err := String

/-- A JavaScript-ish dynamic value, enough to model `feedback.id`, which
the SDK may return as a scalar or as an `[agentId, reviewer, index]`
tuple (`fullflow-mcp-subgraph.js` line 489). -/
inductive JSVal where
  | null
  | num (n : Int)
  | str (s : String)
  | arr (elems : List JSVal)
  deriving Repr

/-- `fullflow-mcp-subgraph.js` line 489:
`Array.isArray(feedback.id) && feedback.id.length === 3 ? feedback.id[2] : 0`. -/
def feedbackIndexOf (id : JSVal) : JSVal :=
  match id with
  | .arr elems => if elems.length = 3 then elems.getD 2 .null else .num 0
  | _ => .num 0

/-- The index-selection rule exactly as the claim states it: the third
element when the id is an array of length 3, and `0` in every other
case (non-array or any other length). -/
def claimedFeedbackIndex (id : JSVal) : JSVal :=
  match id with
  | .arr [_, _, c] => c
  | _ => .num 0

/-! ## The local MCP test server's calculate tool (`scripts/mcp-server.ts`) -/

/-- The result of the `calculate` tool handler: either an early-returned
error content text, or the computed `result` number that is rendered
into the normal content text.  JS numbers are modelled as rationals. -/
inductive CalcOutcome where
  | errorText (msg : String)
  | value (r : ℚ)
  deriving Repr, DecidableEq

/-- `scripts/mcp-server.ts` lines 98-134: the `calculate` tool handler.
The handler is a total function of its arguments: every branch returns
a normal tool response (it never throws), and the divide branch checks
`b === 0` before any division is performed. -/
def calculate (operation : String) (a b : ℚ) : CalcOutcome :=
  match operation with
  | "add" => .value (a + b)
  | "subtract" => .value (a - b)
  | "multiply" => .value (a * b)
  | "divide" =>
    if b = 0 then .errorText "Error: Division by zero"
    else .value (a / b)
  | _ => .errorText ("Error: Unknown operation " ++ operation)

/-! ## MCP capability probing (`fullflow-mcp-subgraph.js` lines 251-322)

Each of the three probes is its own `try { fetch; if (ok) { json; if
(result?.xs) map } } catch { warn }` block.  The possible outcomes of
one probe, as seen by the harness, are: the fetch or JSON parse threw
(caught, warning logged); the HTTP response was not 2xx (`!response.ok`,
silently skipped); a 2xx response whose body lacks the expected
`result.<kind>` list (silently skipped); or a 2xx response carrying the
list. -/

/-- Outcome of one JSON-RPC capability request, from the harness's
point of view. -/
inductive ProbeOutcome (α : Type) where
  | thrown (e : Err)
  | httpError (status : Nat)
  | okNoResult
  | okList (items : List α)

/-- A tool object in a `tools/list` response; the harness reads `t.name`. -/
structure McpTool where
  name : String

/-- A prompt object in a `prompts/list` response; the harness reads `p.name`. -/
structure McpPrompt where
  name : String

/-- A resource object in a `resources/list` response; the harness reads
`r.uri || r.name`, and either field may be absent. -/
structure McpRes where
  uri : Option String
  name : Option String

/-- `r.uri || r.name` (`fullflow-mcp-subgraph.js` line 315): JavaScript
`||` takes `r.name` whenever `r.uri` is falsy, i.e. absent/undefined or
the empty string. -/
def resourceCapabilityName (r : McpRes) : Option String :=
  match r.uri with
  | some u => if u = "" then r.name else some u
  | none => r.name

/-- The resource-name reduction exactly as the claim states it: the
`uri` field is taken, falling back to `name` only when `uri` is absent. -/
def claimedResourceName (r : McpRes) : Option String :=
  match r.uri with
  | some u => some u
  | none => r.name

/-- The resource-name reduction as amended: `uri` is taken when present
and non-empty; when `uri` is absent or empty the reduction falls back to
`name`. -/
def amendedResourceName (r : McpRes) : Option String :=
  match r.uri with
  | some u => if u.length = 0 then r.name else some u
  | none => r.name

/-- One capability probe (`fullflow-mcp-subgraph.js` lines 254-276 for
tools; prompts and resources are the same shape).  Returns the flat
capability list the harness ends up with, and whether a warning was
logged for this probe.  Only a thrown error reaches the `catch` and logs
the "Could not fetch" warning; a non-2xx status or a missing `result`
list falls through silently, leaving the initial `[]`. -/
def probeCapability {α β : Type} (extract : α → β) (o : ProbeOutcome α) :
    List β × Bool :=
  match o with
  | .thrown _ => ([], true)
  | .httpError _ => ([], false)
  | .okNoResult => ([], false)
  | .okList items => (items.map extract, false)

/-- Whether a probe outcome is a failed or malformed response (anything
other than a well-formed response carrying the list). -/
def ProbeOutcome.isFailure {α : Type} : ProbeOutcome α → Bool
  | .okList _ => false
  | _ => true

/-- Whether a probe outcome is a thrown (network/parse) error. -/
def ProbeOutcome.isThrown {α : Type} : ProbeOutcome α → Bool
  | .thrown _ => true
  | _ => false

/-- The combined result of the three sequential probes: the three
capability name lists (`mcpTools`, `mcpPrompts`, `mcpResources`
variables of the script) and the per-probe warning flags. -/
structure McpProbeResult where
  tools : List String
  prompts : List String
  resources : List (Option String)
  warnedTools : Bool
  warnedPrompts : Bool
  warnedResources : Bool

/-- `fullflow-mcp-subgraph.js` lines 251-322: the three probes run in
sequence, each in its own try/catch; none of them can abort the step. -/
def probeMcpCapabilities (oT : ProbeOutcome McpTool)
    (oP : ProbeOutcome McpPrompt) (oR : ProbeOutcome McpRes) :
    McpProbeResult :=
  let rT := probeCapability McpTool.name oT
  let rP := probeCapability McpPrompt.name oP
  let rR := probeCapability resourceCapabilityName oR
  { tools := rT.1, prompts := rP.1, resources := rR.1,
    warnedTools := rT.2, warnedPrompts := rP.2, warnedResources := rR.2 }

/-! ## Subgraph polling for the newly registered agent
(`fullflow-mcp-subgraph.js` lines 401-417) -/

/-- A summary of an agent as returned by the subgraph; only identity
matters to the harness's control flow. -/
structure AgentSummary where
  agentId : String
  name : String

/-- The result of the indexing poll: what (if anything) was found, the
delay in milliseconds that preceded each performed lookup, in order, and
whether the harness printed the not-found warning. -/
structure PollResult (α : Type) where
  found : Option α
  delays : List Nat
  warned : Bool

/-- The retry loop of lines 405-411: up to `fuel` iterations, each
sleeping 10000 ms and then querying the subgraph once, breaking as soon
as the agent is found.  The oracle gives the outcome of the lookup with
the given ordinal.  Returns the result together with the delays that
preceded the performed lookups. -/
def pollRetry {α : Type} (oracle : Nat → Option α) :
    Nat → Nat → Option α × List Nat
  | _, 0 => (none, [])
  | i, fuel + 1 =>
    match oracle i with
    | some a => (some a, [10000])
    | none =>
      let r := pollRetry oracle (i + 1) fuel
      (r.1, 10000 :: r.2)

/-- Lines 401-417: one immediate query, then if the agent is absent the
retry loop with 3 retries; if still absent, the warning of line 414 is
printed and the harness proceeds. -/
def subgraphPoll {α : Type} (oracle : Nat → Option α) : PollResult α :=
  match oracle 0 with
  | some a => { found := some a, delays := [0], warned := false }
  | none =>
    let r := pollRetry oracle 1 3
    { found := r.1, delays := 0 :: r.2, warned := r.1.isNone }

/-! ## The feedback step (`fullflow-mcp-subgraph.js` lines 439-512) and
the subgraph feedback verification helper (lines 104-126) -/

/-- The unsigned feedback draft produced by `sdk.prepareFeedback`. -/
structure FeedbackFile where
  score : Int
  tag1 : Option String
  tag2 : Option String
  tag3 : Option String

/-- The object returned by `sdk.giveFeedback`; its `id` is a dynamic
value that may or may not be the `[agentId, reviewer, index]` tuple. -/
structure Feedback where
  id : JSVal
  reviewer : String
  score : Int

/-- One feedback record as returned by the read queries. -/
structure FeedbackItem where
  score : Int
  tags : List String
  text : String
  createdAt : Nat

/-- The aggregate returned by `sdk.getReputationSummary`. -/
structure ReputationSummary where
  count : Nat
  averageScore : ℚ

/-- Oracles for the five SDK calls the feedback step can make; each is
the outcome (value or thrown error) that call would have. -/
structure FeedbackEnv where
  prepareRes : Except Err FeedbackFile
  giveRes : Except Err Feedback
  searchFeedbackRes : Except Err (List FeedbackItem)
  reputationRes : Except Err ReputationSummary
  getFeedbackRes : Except Err FeedbackItem

/-- The SDK calls a run performs, in order. -/
inductive Call where
  | register
  | prepare
  | give
  | searchFeedback
  | reputation
  | getFeedback (index : JSVal)

/-- What `queryFeedbackFromSubgraph` (lines 104-126) did: `none` means
the query was never executed, `some r` means it was executed and its
outcome `r` was reported (success details or the caught error's
message). -/
structure SubgraphQueryReport where
  searchResult : Option (Except Err (List FeedbackItem))
  reputationResult : Option (Except Err ReputationSummary)

/-- `queryFeedbackFromSubgraph` (lines 104-126): a single try/catch
around BOTH `sdk.searchFeedback` and `sdk.getReputationSummary`, run in
that order.  A thrown search error lands in the catch, so the
reputation query is never executed; a thrown reputation error is caught
after the search results were already reported. -/
def queryFeedbackFromSubgraph (env : FeedbackEnv) :
    SubgraphQueryReport × List Call :=
  match env.searchFeedbackRes with
  | .error e =>
    ({ searchResult := some (.error e), reputationResult := none },
      [.searchFeedback])
  | .ok fbs =>
    match env.reputationRes with
    | .error e =>
      ({ searchResult := some (.ok fbs), reputationResult := some (.error e) },
        [.searchFeedback, .reputation])
    | .ok r =>
      ({ searchResult := some (.ok fbs), reputationResult := some (.ok r) },
        [.searchFeedback, .reputation])

/-- How the feedback step (Step 8, lines 439-512) ended. -/
inductive FeedbackOutcome where
  | skippedNoSigner
  | errorLogged (e : Err)
  | completed (q : SubgraphQueryReport) (direct : Except Err FeedbackItem)

/-- Lines 439-512.  With no feedback signer the step logs a skip message
and falls through (no throw).  Otherwise the whole flow is wrapped in a
try/catch that logs any error and falls through: `prepareFeedback` and
`giveFeedback` throwing are caught there; `queryFeedbackFromSubgraph`
never throws; the direct `getFeedback` retrieval (Step 10, lines
494-504) has its own inner try/catch and is reported independently.
Returns the outcome and the list of SDK calls performed. -/
def feedbackStep (hasFeedbackSigner : Bool) (env : FeedbackEnv) :
    FeedbackOutcome × List Call :=
  if hasFeedbackSigner = false then (.skippedNoSigner, [])
  else
    match env.prepareRes with
    | .error e => (.errorLogged e, [.prepare])
    | .ok _file =>
      match env.giveRes with
      | .error e => (.errorLogged e, [.prepare, .give])
      | .ok fb =>
        let q := queryFeedbackFromSubgraph env
        let idx := feedbackIndexOf fb.id
        (.completed q.1 env.getFeedbackRes,
          .prepare :: .give :: q.2 ++ [.getFeedback idx])

/-- Modelled from the spec: the external SDK's `prepareFeedback` score
validation lives in the built SDK (`dist/`, not under `src/`); per the
spec the score must lie in the documented 1-5 range and out-of-range
scores are rejected with an error rather than silently clamped. -/
def prepareFeedbackSDK (score : Int) (tags : List String) :
    Except Err FeedbackFile :=
  if score < 1 ∨ 5 < score then .error "Score must be between 1 and 5"
  else .ok { score := score, tag1 := tags.get? 0, tag2 := tags.get? 1,
             tag3 := tags.get? 2 }

/-! ## The full run of `fullflow-mcp-subgraph.js` (`main`, lines 130-558)

The whole body of `main` sits in one try/catch whose catch prints the
error and calls `process.exit(1)`; a run that falls off the end exits 0
(lines 548-570).  Each external interaction is an oracle field of
`Env`. -/

/-- The value returned by `agent.registerIPFS()`. -/
structure RegistrationFile where
  agentId : Option String
  agentURI : Option String

/-- Modelled from the spec: the SDK constructor (in `dist/`, not under
`src/`) creates its IPFS client exactly when the content-storage
(Pinata) credential is configured, which the harness wires in at lines
193-197 (`sdkConfig.ipfs = 'pinata'` iff `PINATA_JWT` is set). -/
def ipfsClientPresent (pinataJwt : Option String) : Bool :=
  pinataJwt.isSome

/-- Oracles for every external interaction of `main`, in source order.
Environment variables are `Option String`; every network call carries
the outcome it would have. -/
structure Env where
  rpcUrl : Option String
  privateKey : Option String
  feedbackPrivateKey : Option String
  pinataJwt : Option String
  mcpConnectivity : Bool
  chainIdRes : Except Err Nat
  ownerBalance : Except Err Nat
  feedbackBalance : Except Err Nat
  registriesCount : Nat
  probeTools : ProbeOutcome McpTool
  probePrompts : ProbeOutcome McpPrompt
  probeResources : ProbeOutcome McpRes
  setMcpRes : Except Err Unit
  registerRes : Except Err RegistrationFile
  pollOracle : Nat → Option AgentSummary
  loadAgentRes : Except Err AgentSummary
  feedbackEnv : FeedbackEnv
  searchAgentsRes : Except Err (List AgentSummary)

/-- The observable outcome of a run: the process exit code, the SDK
calls made, how the feedback step ended (`none` when the run died before
reaching it), the MCP capabilities collected (`none` when the run died
before probing), and the indexing-poll trace (`none` when the run died
before polling). -/
structure RunResult where
  exit : Nat
  calls : List Call
  feedback : Option FeedbackOutcome
  mcp : Option McpProbeResult
  pollTrace : Option (PollResult AgentSummary)

/-- Everything after a successful registration and identity extraction
(lines 394-546): the 10 s settle wait, the indexing poll, `loadAgent`
(its own try/catch), the feedback step (never throws), the final agent
search (its own try/catch) and the summary.  None of it can throw, so
the run reaches the end of `main` and exits 0; the poll trace is only
logged, never branched on. -/
def postRegistration (env : Env) (mcp : McpProbeResult)
    (ptrace : PollResult AgentSummary) : RunResult :=
  let fr := feedbackStep env.feedbackPrivateKey.isSome env.feedbackEnv
  { exit := 0, calls := .register :: fr.2, feedback := some fr.1,
    mcp := some mcp, pollTrace := some ptrace }

/-- The part of `main` after the balance fetches and the feedback-wallet
check (lines 219-546): the owner zero-balance guard, the registries
guard, the advisory agent search (own try/catch), the capability probes,
the MCP endpoint configuration (whose catch at line 343 rethrows), the
IPFS-client guard immediately before `registerIPFS`, registration, the
agent-id extraction guard, and the post-registration tail. -/
def mainAfterBalances (env : Env) (bal : Nat) : RunResult :=
  if bal = 0 then
    { exit := 1, calls := [], feedback := none, mcp := none,
      pollTrace := none }
  else if env.registriesCount = 0 then
    { exit := 1, calls := [], feedback := none, mcp := none,
      pollTrace := none }
  else
    let mcp := probeMcpCapabilities env.probeTools env.probePrompts
      env.probeResources
    match env.setMcpRes with
    | .error _ =>
      { exit := 1, calls := [], feedback := none, mcp := some mcp,
        pollTrace := none }
    | .ok _ =>
      if ipfsClientPresent env.pinataJwt = false then
        { exit := 1, calls := [], feedback := none, mcp := some mcp,
          pollTrace := none }
      else
        match env.registerRes with
        | .error _ =>
          { exit := 1, calls := [.register], feedback := none,
            mcp := some mcp, pollTrace := none }
        | .ok regFile =>
          match regFile.agentId with
          | none =>
            { exit := 1, calls := [.register], feedback := none,
              mcp := some mcp, pollTrace := none }
          | some _ =>
            postRegistration env mcp (subgraphPoll env.pollOracle)

/-- `main` of `fullflow-mcp-subgraph.js`, lines 130-558, translated
branch by branch; every `throw` inside the body lands in the outer
catch, which exits with code 1. -/
def mainRun (env : Env) : RunResult :=
  match env.rpcUrl with
  | none => { exit := 1, calls := [], feedback := none, mcp := none,
              pollTrace := none }
  | some _ =>
  match env.privateKey with
  | none => { exit := 1, calls := [], feedback := none, mcp := none,
              pollTrace := none }
  | some _ =>
  match env.chainIdRes with
  | .error _ => { exit := 1, calls := [], feedback := none, mcp := none,
                  pollTrace := none }
  | .ok _ =>
  match env.ownerBalance with
  | .error _ => { exit := 1, calls := [], feedback := none, mcp := none,
                  pollTrace := none }
  | .ok bal =>
  match env.feedbackPrivateKey with
  | some _ =>
    match env.feedbackBalance with
    | .error _ => { exit := 1, calls := [], feedback := none, mcp := none,
                    pollTrace := none }
    | .ok fbal =>
      if fbal = 0 then
        { exit := 1, calls := [], feedback := none, mcp := none,
          pollTrace := none }
      else mainAfterBalances env bal
  | none => mainAfterBalances env bal

/-! ## The read-only test-suite script (`src/unnamed/part_001`) -/

/-- A signer wallet derived from a private key. -/
structure Wallet where
  privateKey : String

/-- The SDK state the scripts can observe. -/
structure FluidSDKState where
  chainId : Nat
  rpcUrl : String
  signer : Option Wallet

/-- Modelled from the spec: the FluidSDK constructor lives in the built
SDK (`dist/`, not under `src/`); per the spec, read-only operation mode
is a supported, explicit state, not an error, when no signer is
configured, so construction without a signer succeeds. -/
def fluidSDKNew (chainId : Nat) (rpcUrl : String) (signer : Option Wallet) :
    Except Err FluidSDKState :=
  .ok { chainId := chainId, rpcUrl := rpcUrl, signer := signer }

/-- Modelled from the spec: `sdk.isReadOnly` (built SDK, not under
`src/`) reports `true` exactly when no signer is configured. -/
def isReadOnly (sdk : FluidSDKState) : Bool :=
  sdk.signer.isNone

/-- The setup portion of the read-only test script (`src/unnamed/part_001`
lines 13-44): resolve the RPC URL against the public default, create a
signer only when a private key is configured (the absent-key branch just
logs and continues), construct the SDK and read `sdk.isReadOnly`. -/
def readOnlySetup (privateKey : Option String) (rpcUrl : Option String)
    (chainIdEnv : Nat) : Except Err (FluidSDKState × Bool) :=
  let resolvedRpc := rpcUrl.getD "https://ethereum-sepolia-rpc.publicnode.com"
  let signer : Option Wallet := privateKey.map (fun k => { privateKey := k })
  match fluidSDKNew chainIdEnv resolvedRpc signer with
  | .error e => .error e
  | .ok sdk => .ok (sdk, isReadOnly sdk)

/-! ## A concrete, fully successful environment for witness runs -/

/-- A run environment in which both keys are set, Pinata is configured
and every external call succeeds. -/
def happyEnv : Env :=
  { rpcUrl := some "https://rpc.example",
    privateKey := some "0xaaa",
    feedbackPrivateKey := some "0xbbb",
    pinataJwt := some "jwt",
    mcpConnectivity := true,
    chainIdRes := .ok 11155111,
    ownerBalance := .ok 1000000,
    feedbackBalance := .ok 1000000,
    registriesCount := 2,
    probeTools := .okList [{ name := "calculate" }, { name := "echo" }],
    probePrompts := .okList [{ name := "greeting" }],
    probeResources := .okList
      [{ uri := some "fluidsdk://config", name := some "SDK Configuration" }],
    setMcpRes := .ok (),
    registerRes := .ok { agentId := some "11155111:7",
                         agentURI := some "ipfs://QmX" },
    pollOracle := fun _ => some { agentId := "11155111:7", name := "MCP Agent" },
    loadAgentRes := .ok { agentId := "11155111:7", name := "MCP Agent" },
    feedbackEnv :=
      { prepareRes := .ok { score := 5, tag1 := some "mcp",
                            tag2 := some "integration", tag3 := some "test" },
        giveRes := .ok { id := .arr [.str "11155111:7", .str "0xr", .num 0],
                         reviewer := "0xr", score := 5 },
        searchFeedbackRes := .ok [{ score := 5, tags := ["mcp"],
                                    text := "Excellent", createdAt := 1 }],
        reputationRes := .ok { count := 1, averageScore := 5 },
        getFeedbackRes := .ok { score := 5, tags := ["mcp"],
                                text := "Excellent", createdAt := 1 } },
    searchAgentsRes := .ok [{ agentId := "11155111:7", name := "MCP Agent" }] }

/-! # Theorems settling the claims -/

/-- Claim C5: when no signer is configured (no private key in the
environment), the read-only test script runs in a supported, explicit
read-only mode — construction succeeds without error and the SDK's
`isReadOnly` flag reports `true` — instead of treating the absent key as
a configuration failure. -/
theorem C5_read_only_mode (rpc : Option String) (cid : Nat) :
    readOnlySetup none rpc cid =
      .ok ({ chainId := cid,
             rpcUrl := rpc.getD "https://ethereum-sepolia-rpc.publicnode.com",
             signer := none }, true) := rfl

/-- Claim C8, counterexample: the claim says the resource `uri` field is
taken whenever it is present, with `name` only a fallback for an absent
`uri`; but for a present-but-empty `uri` the code's `r.uri || r.name`
takes `name` (empty string is falsy in JavaScript), diverging from the
claimed reduction at this input. -/
theorem C8_counterexample :
    resourceCapabilityName { uri := some "", name := some "Server Status" } ≠
      claimedResourceName { uri := some "", name := some "Server Status" } := by
  decide

/-- Claim C8 as amended: each probe response is reduced to a flat list of
capability names — each tool's and each prompt's `name` field, and for
each resource its `uri` field, falling back to its `name` field when
`uri` is absent or empty. -/
theorem C8_capability_name_reduction (ts : List McpTool) (ps : List McpPrompt)
    (rs : List McpRes) (r : McpRes) :
    (probeCapability McpTool.name (ProbeOutcome.okList ts)).1 =
      ts.map McpTool.name ∧
    (probeCapability McpPrompt.name (ProbeOutcome.okList ps)).1 =
      ps.map McpPrompt.name ∧
    (probeCapability resourceCapabilityName (ProbeOutcome.okList rs)).1 =
      rs.map resourceCapabilityName ∧
    resourceCapabilityName r = amendedResourceName r := by
  refine ⟨rfl, rfl, rfl, ?_⟩
  rcases r with ⟨uri, name⟩
  cases uri with
  | none => rfl
  | some u =>
    by_cases h : u = ""
    · simp [resourceCapabilityName, amendedResourceName, h]
    · have hlen : u.length ≠ 0 := by
        intro h0
        apply h
        rcases u with ⟨data⟩
        cases data with
        | nil => rfl
        | cons c cs => simp [String.length] at h0
      simp [resourceCapabilityName, amendedResourceName, h, hlen]

/-- Claim C9: in the local MCP test server's calculate tool handler, the
divide operation is guarded: with `b = 0` the handler returns a normal
tool result whose content text is "Error: Division by zero" (the handler
is total — it neither divides nor throws on that branch), and with
`b ≠ 0` it returns the quotient `a / b`. -/
theorem C9_divide_guard (a b : ℚ) :
    calculate "divide" a b =
      (if b = 0 then CalcOutcome.errorText "Error: Division by zero"
       else CalcOutcome.value (a / b)) := by
  rfl

/-- Claim C10: the index used to retrieve the feedback is the third
element of `feedback.id` exactly when `feedback.id` is an array of
length 3, and in every other case (non-array, or any other length) it
defaults to 0. -/
theorem C10_feedback_index (v : JSVal) :
    feedbackIndexOf v = claimedFeedbackIndex v := by
  cases v with
  | null => rfl
  | num n => rfl
  | str s => rfl
  | arr elems =>
    match elems with
    | [] => rfl
    | [_] => rfl
    | [_, _] => rfl
    | [_, _, _] => rfl
    | _ :: _ :: _ :: _ :: rest =>
      simp [feedbackIndexOf, claimedFeedbackIndex]

/-- Helper: the retry loop performs at most `fuel` lookups, sleeps
10000 ms before each of them, and performs exactly `fuel` lookups when
the agent is never found. -/
theorem pollRetry_spec {α : Type} (oracle : Nat → Option α) :
    ∀ (fuel i : Nat),
      (pollRetry oracle i fuel).2.length ≤ fuel ∧
      (pollRetry oracle i fuel).2 =
        List.replicate (pollRetry oracle i fuel).2.length 10000 ∧
      ((pollRetry oracle i fuel).1 = none →
        (pollRetry oracle i fuel).2.length = fuel) := by
  intro fuel
  induction fuel with
  | zero => intro i; simp [pollRetry]
  | succ n ih =>
    intro i
    cases h : oracle i with
    | some a =>
      simp [pollRetry, h, List.replicate]
    | none =>
      have hr := ih (i + 1)
      refine ⟨?_, ?_, ?_⟩
      · simp only [pollRetry, h]
        exact Nat.succ_le_succ hr.1
      · simp only [pollRetry, h, List.length_cons, List.replicate]
        exact congrArg _ hr.2.1
      · intro hnone
        simp only [pollRetry, h] at hnone ⊢
        simp [hr.2.2 hnone]

/-- Claim C1: after registration the harness polls the subgraph with one
immediate lookup followed, while the agent is absent, by up to 3 retries
each preceded by a 10-second sleep — at most 4 lookups in total, never
more; when the agent is still absent after all retries the poll sets the
warning and the remainder of the run (exit code, SDK calls, feedback
outcome) does not depend on the poll's outcome at all: the harness
proceeds instead of failing. -/
theorem C1_poll_policy (oracle : Nat → Option AgentSummary) :
    (subgraphPoll oracle).delays.length ≤ 4 ∧
    (subgraphPoll oracle).delays =
      0 :: List.replicate ((subgraphPoll oracle).delays.length - 1) 10000 ∧
    ((subgraphPoll oracle).found = none →
      (subgraphPoll oracle).delays.length = 4 ∧
      (subgraphPoll oracle).warned = true) ∧
    (∀ (env : Env) (mcp : McpProbeResult) (t u : PollResult AgentSummary),
      (postRegistration env mcp t).exit = (postRegistration env mcp u).exit ∧
      (postRegistration env mcp t).calls = (postRegistration env mcp u).calls ∧
      (postRegistration env mcp t).feedback =
        (postRegistration env mcp u).feedback) := by
  have hp := pollRetry_spec oracle 3 1
  cases h0 : oracle 0 with
  | some a =>
    refine ⟨?_, ?_, ?_, ?_⟩
    · simp [subgraphPoll, h0]
    · simp [subgraphPoll, h0, List.replicate]
    · intro hnone; simp [subgraphPoll, h0] at hnone
    · intro env mcp t u; exact ⟨rfl, rfl, rfl⟩
  | none =>
    refine ⟨?_, ?_, ?_, ?_⟩
    · simp only [subgraphPoll, h0, List.length_cons]
      exact Nat.succ_le_succ hp.1
    · simp only [subgraphPoll, h0, List.length_cons, Nat.add_sub_cancel]
      exact congrArg _ hp.2.1
    · intro hnone
      simp only [subgraphPoll, h0] at hnone ⊢
      constructor
      · simp [hp.2.2 hnone]
      · simp [hnone]
    · intro env mcp t u; exact ⟨rfl, rfl, rfl⟩

/-- Witness for C1: with a subgraph that never indexes the agent, the
poll performs exactly 4 lookups and ends warned with nothing found. -/
theorem C1_poll_policy_witness :
    (subgraphPoll (fun _ => (none : Option AgentSummary))).found = none ∧
    (subgraphPoll (fun _ => (none : Option AgentSummary))).delays.length = 4 ∧
    (subgraphPoll (fun _ => (none : Option AgentSummary))).warned = true := by
  refine ⟨rfl, ?_, ?_⟩
  · exact ((C1_poll_policy (fun _ => none)).2.2.1 rfl).1
  · exact ((C1_poll_policy (fun _ => none)).2.2.1 rfl).2

/-- Claim C2, counterexample: with only one signing identity configured
(`FEEDBACK_PRIVATE_KEY` absent) and everything else healthy, the run
does NOT fail fatally: the feedback step logs a skip and the run
completes with exit status 0, contradicting the claim that the harness
terminates with a non-zero status. -/
theorem C2_counterexample :
    (mainRun { happyEnv with feedbackPrivateKey := none }).exit = 0 ∧
    (mainRun { happyEnv with feedbackPrivateKey := none }).feedback =
      some FeedbackOutcome.skippedNoSigner := by
  exact ⟨rfl, rfl⟩

/-- Claim C2 as amended: when only one signing identity is configured
(`FEEDBACK_PRIVATE_KEY` absent), the harness detects the missing second
signer, reports it, and skips the feedback step entirely — it never
attempts `prepareFeedback` or the `giveFeedback` transaction — but the
run continues past the skip (completing with status 0 when nothing else
fails) rather than terminating with a non-zero status. -/
theorem C2_missing_signer_skips (env : Env)
    (h : env.feedbackPrivateKey = none) :
    ((mainRun env).feedback = some FeedbackOutcome.skippedNoSigner ∨
      (mainRun env).feedback = none) ∧
    Call.prepare ∉ (mainRun env).calls ∧
    Call.give ∉ (mainRun env).calls := by
  unfold mainRun mainAfterBalances postRegistration
  rw [h]
  repeat' split
  all_goals simp_all [feedbackStep]

/-- Witness for C2: the amended behaviour at the concrete healthy
environment lacking only the second key. -/
theorem C2_missing_signer_skips_witness :
    ((mainRun { happyEnv with feedbackPrivateKey := none }).feedback =
        some FeedbackOutcome.skippedNoSigner ∨
      (mainRun { happyEnv with feedbackPrivateKey := none }).feedback = none) ∧
    Call.prepare ∉ (mainRun { happyEnv with feedbackPrivateKey := none }).calls ∧
    Call.give ∉ (mainRun { happyEnv with feedbackPrivateKey := none }).calls :=
  C2_missing_signer_skips { happyEnv with feedbackPrivateKey := none } rfl

/-- A feedback environment in which preparation and submission succeed
but the filtered subgraph search throws, while the reputation summary
and the direct lookup would succeed if executed. -/
def searchFailEnv : FeedbackEnv :=
  { prepareRes := .ok { score := 5, tag1 := some "mcp", tag2 := none,
                        tag3 := none },
    giveRes := .ok { id := .arr [.str "11155111:7", .str "0xr", .num 0],
                     reviewer := "0xr", score := 5 },
    searchFeedbackRes := .error "subgraph query failed",
    reputationRes := .ok { count := 1, averageScore := 5 },
    getFeedbackRes := .ok { score := 5, tags := ["mcp"], text := "Excellent",
                            createdAt := 1 } }

/-- Claim C3, counterexample: in an execution where only the filtered
feedback search throws (the reputation summary would succeed), the
reputation summary is never executed — `searchFeedback` and
`getReputationSummary` sit in one shared try/catch in
`queryFeedbackFromSubgraph`, so the search failure suppresses the
summary, contradicting the claimed independence of the three queries. -/
theorem C3_counterexample :
    (queryFeedbackFromSubgraph searchFailEnv).1.reputationResult = none ∧
    Call.reputation ∉ (feedbackStep true searchFailEnv).2 ∧
    searchFailEnv.reputationRes =
      Except.ok { count := 1, averageScore := 5 } := by
  refine ⟨rfl, ?_, rfl⟩
  have h : (feedbackStep true searchFailEnv).2 =
      [Call.prepare, Call.give, Call.searchFeedback,
       Call.getFeedback (JSVal.num 0)] := rfl
  rw [h]
  simp

/-- Claim C3 as amended: in the reputation/search verification, the
direct feedback lookup has its own error handler and is executed and
reported independently of the other two queries; the filtered feedback
search is always executed and its outcome reported; but the search and
the aggregate reputation summary share one error handler, so the summary
is executed only when the search did not throw (a thrown search error
suppresses it), while a summary failure cannot suppress the
already-reported search. -/
theorem C3_query_reporting (env : FeedbackEnv) (file : FeedbackFile)
    (fb : Feedback) (hp : env.prepareRes = .ok file)
    (hg : env.giveRes = .ok fb) :
    (feedbackStep true env).1 =
      FeedbackOutcome.completed (queryFeedbackFromSubgraph env).1
        env.getFeedbackRes ∧
    Call.getFeedback (feedbackIndexOf fb.id) ∈ (feedbackStep true env).2 ∧
    (queryFeedbackFromSubgraph env).1.searchResult =
      some env.searchFeedbackRes ∧
    ((queryFeedbackFromSubgraph env).1.reputationResult =
      match env.searchFeedbackRes with
      | .ok _ => some env.reputationRes
      | .error _ => none) := by
  refine ⟨?_, ?_, ?_, ?_⟩
  · simp [feedbackStep, hp, hg]
  · simp [feedbackStep, hp, hg]
  · cases hs : env.searchFeedbackRes with
    | error e => simp [queryFeedbackFromSubgraph, hs]
    | ok fbs =>
      cases hr : env.reputationRes with
      | error e => simp [queryFeedbackFromSubgraph, hs, hr]
      | ok r => simp [queryFeedbackFromSubgraph, hs, hr]
  · cases hs : env.searchFeedbackRes with
    | error e => simp [queryFeedbackFromSubgraph, hs]
    | ok fbs =>
      cases hr : env.reputationRes with
      | error e => simp [queryFeedbackFromSubgraph, hs, hr]
      | ok r => simp [queryFeedbackFromSubgraph, hs, hr]

/-- Witness for C3: the amended reporting behaviour at the concrete
environment in which only the search throws. -/
theorem C3_query_reporting_witness :
    (feedbackStep true searchFailEnv).1 =
      FeedbackOutcome.completed (queryFeedbackFromSubgraph searchFailEnv).1
        searchFailEnv.getFeedbackRes ∧
    Call.getFeedback
        (feedbackIndexOf (JSVal.arr
          [.str "11155111:7", .str "0xr", .num 0])) ∈
      (feedbackStep true searchFailEnv).2 ∧
    (queryFeedbackFromSubgraph searchFailEnv).1.searchResult =
      some searchFailEnv.searchFeedbackRes ∧
    ((queryFeedbackFromSubgraph searchFailEnv).1.reputationResult =
      match searchFailEnv.searchFeedbackRes with
      | .ok _ => some searchFailEnv.reputationRes
      | .error _ => none) :=
  C3_query_reporting searchFailEnv
    { score := 5, tag1 := some "mcp", tag2 := none, tag3 := none }
    { id := .arr [.str "11155111:7", .str "0xr", .num 0],
      reviewer := "0xr", score := 5 } rfl rfl

/-- Claim C4, counterexample: an HTTP 500 on `tools/list` degrades the
tool list to empty but logs NO warning — the `!response.ok` case falls
through silently and only a thrown error reaches the catch that logs
"Could not fetch" — contradicting the claim that every failed response
degrades "with a logged warning".  The other two kinds are unaffected. -/
theorem C4_counterexample :
    (probeMcpCapabilities (ProbeOutcome.httpError 500)
      (ProbeOutcome.okList [{ name := "greeting" }])
      (ProbeOutcome.okList [{ uri := some "fluidsdk://config",
                              name := some "SDK Configuration" }])).tools
      = [] ∧
    (probeMcpCapabilities (ProbeOutcome.httpError 500)
      (ProbeOutcome.okList [{ name := "greeting" }])
      (ProbeOutcome.okList [{ uri := some "fluidsdk://config",
                              name := some "SDK Configuration" }])).warnedTools
      = false ∧
    (probeMcpCapabilities (ProbeOutcome.httpError 500)
      (ProbeOutcome.okList [{ name := "greeting" }])
      (ProbeOutcome.okList [{ uri := some "fluidsdk://config",
                              name := some "SDK Configuration" }])).prompts
      = ["greeting"] ∧
    (probeMcpCapabilities (ProbeOutcome.httpError 500)
      (ProbeOutcome.okList [{ name := "greeting" }])
      (ProbeOutcome.okList [{ uri := some "fluidsdk://config",
                              name := some "SDK Configuration" }])).resources
      = [some "fluidsdk://config"] :=
  ⟨rfl, rfl, rfl, rfl⟩

/-- Claim C4 as amended: the three JSON-RPC capability probes are
independent — each kind's output depends only on that kind's response,
a failed or malformed response (absent `result` list, non-2xx status, or
thrown network/parse error) degrades only that kind's output to an empty
list, and no outcome ever aborts the probing of the other kinds or the
overall run (the run always records a probe result and proceeds); a
warning is logged exactly for a thrown network/parse error, while a
non-2xx status or an absent `result` field degrades silently. -/
theorem C4_probe_isolation (oT oT2 : ProbeOutcome McpTool)
    (oP oP2 : ProbeOutcome McpPrompt) (oR oR2 : ProbeOutcome McpRes) :
    ((probeMcpCapabilities oT oP oR).tools =
        (probeMcpCapabilities oT oP2 oR2).tools ∧
      (probeMcpCapabilities oT oP oR).prompts =
        (probeMcpCapabilities oT2 oP oR2).prompts ∧
      (probeMcpCapabilities oT oP oR).resources =
        (probeMcpCapabilities oT2 oP2 oR).resources) ∧
    (oT.isFailure = true → (probeMcpCapabilities oT oP oR).tools = []) ∧
    (oP.isFailure = true → (probeMcpCapabilities oT oP oR).prompts = []) ∧
    (oR.isFailure = true → (probeMcpCapabilities oT oP oR).resources = []) ∧
    ((probeMcpCapabilities oT oP oR).warnedTools = oT.isThrown ∧
      (probeMcpCapabilities oT oP oR).warnedPrompts = oP.isThrown ∧
      (probeMcpCapabilities oT oP oR).warnedResources = oR.isThrown) ∧
    (∀ (env : Env) (bal : Nat), ¬bal = 0 → ¬env.registriesCount = 0 →
      (mainAfterBalances env bal).mcp =
        some (probeMcpCapabilities env.probeTools env.probePrompts
          env.probeResources)) := by
  refine ⟨⟨rfl, rfl, rfl⟩, ?_, ?_, ?_, ⟨?_, ?_, ?_⟩, ?_⟩
  · intro h; cases oT <;> simp_all [probeMcpCapabilities, probeCapability,
      ProbeOutcome.isFailure]
  · intro h; cases oP <;> simp_all [probeMcpCapabilities, probeCapability,
      ProbeOutcome.isFailure]
  · intro h; cases oR <;> simp_all [probeMcpCapabilities, probeCapability,
      ProbeOutcome.isFailure]
  · cases oT <;> rfl
  · cases oP <;> rfl
  · cases oR <;> rfl
  · intro env bal h1 h2
    simp only [mainAfterBalances, if_neg h1, if_neg h2]
    split
    · rfl
    · split
      · rfl
      · split
        · rfl
        · split
          · rfl
          · rfl

/-- Witness for C4: the failed-probe degradation and the never-aborts
conjunct at concrete inputs. -/
theorem C4_probe_isolation_witness :
    (probeMcpCapabilities (ProbeOutcome.httpError 500)
      (ProbeOutcome.okList [{ name := "greeting" }])
      (ProbeOutcome.okList [])).tools = [] ∧
    (mainAfterBalances happyEnv 1000000).mcp =
      some (probeMcpCapabilities happyEnv.probeTools happyEnv.probePrompts
        happyEnv.probeResources) := by
  constructor
  · exact (C4_probe_isolation (.httpError 500) (.okList [])
      (.okList [{ name := "greeting" }]) (.okList [])
      (.okList []) (.okList [])).2.1 rfl
  · exact (C4_probe_isolation (.httpError 500) (.okList [])
      (.okList [{ name := "greeting" }]) (.okList [])
      (.okList []) (.okList [])).2.2.2.2.2 happyEnv 1000000
      (by decide) (by decide)

/-- Claim C6: the registration step fails fatally before submitting the
on-chain transaction whenever no IPFS client is configured (no
content-storage credential) or the signer's balance is zero (the code's
minimum threshold: a positive balance is required); in both cases a
guard throws, the run exits with status 1, and `registerIPFS` is never
called. -/
theorem C6_registration_guards (env : Env)
    (h : ipfsClientPresent env.pinataJwt = false ∨
      env.ownerBalance = .ok 0) :
    (mainRun env).exit = 1 ∧ Call.register ∉ (mainRun env).calls ∧
    (mainRun env).feedback = none := by
  unfold mainRun mainAfterBalances postRegistration
  rcases h with h | h <;>
    · repeat' split
      all_goals simp_all

/-- Witness for C6: with Pinata credentials removed from the otherwise
healthy environment, the run dies before registration. -/
theorem C6_registration_guards_witness :
    (ipfsClientPresent (none : Option String) = false ∨
      ({ happyEnv with pinataJwt := none } : Env).ownerBalance =
        .ok 0) ∧
    (mainRun { happyEnv with pinataJwt := none }).exit = 1 ∧
    Call.register ∉ (mainRun { happyEnv with pinataJwt := none }).calls ∧
    (mainRun { happyEnv with pinataJwt := none }).feedback = none :=
  ⟨Or.inl rfl,
    C6_registration_guards { happyEnv with pinataJwt := none } (Or.inl rfl)⟩

/-- Claim C7: for every score outside [1,5], feedback preparation is
rejected by the SDK's validation rather than silently clamped (validation
modelled from the spec, as it lives in the built SDK); the harness
propagates that rejection as a recoverable, reported error — the feedback
step ends as `errorLogged` after only the `prepare` call — and every run
that reaches the feedback step at all completes with exit status 0, so
the rejection never crashes the run. -/
theorem C7_score_validation (score : Int) (h : score < 1 ∨ 5 < score) :
    (∀ tags, ∃ e, prepareFeedbackSDK score tags = .error e) ∧
    (∀ (env : FeedbackEnv) (tags : List String),
      feedbackStep true
          { env with prepareRes := prepareFeedbackSDK score tags } =
        (FeedbackOutcome.errorLogged "Score must be between 1 and 5",
          [Call.prepare])) ∧
    (∀ env : Env, (mainRun env).feedback.isSome = true →
      (mainRun env).exit = 0) := by
  refine ⟨?_, ?_, ?_⟩
  · intro tags
    exact ⟨"Score must be between 1 and 5",
      by simp [prepareFeedbackSDK, if_pos h]⟩
  · intro env tags
    simp [feedbackStep, prepareFeedbackSDK, if_pos h]
  · intro env
    unfold mainRun mainAfterBalances postRegistration
    repeat' split
    all_goals simp

/-- Witness for C7: score 6 is rejected and the rejection is recoverable
at the concrete healthy environment. -/
theorem C7_score_validation_witness :
    ((6 : Int) < 1 ∨ 5 < (6 : Int)) ∧
    (∃ e, prepareFeedbackSDK 6 ["t"] = .error e) ∧
    feedbackStep true
        { happyEnv.feedbackEnv with prepareRes := prepareFeedbackSDK 6 ["t"] } =
      (FeedbackOutcome.errorLogged "Score must be between 1 and 5",
        [Call.prepare]) ∧
    ((mainRun happyEnv).feedback.isSome = true →
      (mainRun happyEnv).exit = 0) :=
  ⟨by decide, (C7_score_validation 6 (by decide)).1 ["t"],
    (C7_score_validation 6 (by decide)).2.1 happyEnv.feedbackEnv ["t"],
    (C7_score_validation 6 (by decide)).2.2 happyEnv⟩

end FluidTest
